import Mathlib

/-!
Verification of the in-memory ledger of the Load-Account-Balances challenge.

The repository contains two variants of the `BankingService` class:
a plain one (`src/services/BankingService.ts`, no tenant check) and a
tenant-aware one (the unnamed service file, which additionally checks the
`companyId` of both accounts).  Both share the `AccountEntity` model
(`domain/models/Account.ts`) and the `TransactionEntity` model
(`domain/models/Transaction.ts`).

Modelling decisions:
* JavaScript numbers are modelled as exact rationals `ℚ`; the source performs
  only `+` and `-` on balances.
* The mutable `Map<string, AccountEntity>` is modelled as a `List Account`
  in insertion order; mutating an entity in place is modelled by replacing
  the account with the same account number in the list.  The map keys an
  entity by its own `getAccountNumber()`, so one object appears under at most
  one key, and two lookups alias the same object exactly when the two account
  numbers are equal.
* A thrown exception is modelled by `Except BankingError`; the caller's view
  of the ledger after a throwing call is the unchanged state.
-/

/-- The kinds of errors the service can raise: the typed `BankingError`
subclasses of `domain/errors/BankingError.ts`, plain `Error(message)` throws,
and the `ZodError` raised by schema validation in the entity constructors. -/
inductive BankingError where
  | accountNotFound (accountNumber : String)
  | insufficientFunds (accountNumber : String) (required available : ℚ)
  | companyMismatch (expected actual : String)
  | generic (message : String)
  | validation
deriving DecidableEq, Repr

/-- The `Account` record of `domain/models/Account.ts`: the data held by an
`AccountEntity` (accountNumber, balance, companyId). -/
structure Account where
  accountNumber : String
  balance : ℚ
  companyId : String
deriving DecidableEq, Repr

/-- `z.string().length(16).regex(/^\d+$/)`: exactly 16 characters, all ASCII
digits. -/
def isValidAccountNumber (s : String) : Bool :=
  s.length = 16 && s.toList.all (fun c => c.isDigit)

/-- The validating `AccountEntity` constructor: `AccountSchema.parse` accepts
the record iff the account number is a 16-digit string and the balance is
non-negative (`z.number().min(0)`); `companyId` is any string. -/
def mkAccountEntity (a : Account) : Except BankingError Account :=
  if isValidAccountNumber a.accountNumber = true ∧ 0 ≤ a.balance then
    .ok a
  else
    .error .validation

/-- `AccountEntity.canWithdraw`: true iff `balance >= amount`. -/
def Account.canWithdraw (a : Account) (amount : ℚ) : Bool :=
  decide (a.balance ≥ amount)

/-- `AccountEntity.withdraw`: throws the plain `Error('Insufficient funds')`
when `!canWithdraw(amount)`, otherwise `balance -= amount`. -/
def Account.withdraw (a : Account) (amount : ℚ) : Except BankingError Account :=
  if a.canWithdraw amount = true then
    .ok { a with balance := a.balance - amount }
  else
    .error (.generic "Insufficient funds")

/-- `AccountEntity.deposit`: `balance += amount`, unconditionally (no check of
any kind, no error path). -/
def Account.deposit (a : Account) (amount : ℚ) : Account :=
  { a with balance := a.balance + amount }

/-- The service's account map, as the list of accounts in insertion order. -/
abbrev BankState := List Account

/-- `this.accounts.get(n)`. -/
def getAccount (s : BankState) (n : String) : Option Account :=
  s.find? (fun a => a.accountNumber == n)

/-- Writing back an entity that was mutated in place: every list entry holding
the same account number is replaced. -/
def setAccount (s : BankState) (a : Account) : BankState :=
  s.map (fun b => if b.accountNumber == a.accountNumber then a else b)

/-- `this.accounts.set(account.getAccountNumber(), account)`: overwrite the
existing key or append a new one, preserving insertion order. -/
def insertAccount (s : BankState) (a : Account) : BankState :=
  if s.any (fun b => b.accountNumber == a.accountNumber) then
    setAccount s a
  else
    s ++ [a]

/-- The `BankingService` constructor: index the initial accounts by account
number (duplicates: last one wins). -/
def mkBankingService (initialAccounts : List Account) : BankState :=
  initialAccounts.foldl insertAccount []

/-- `getAllAccounts()`: `Array.from(this.accounts.values())`, the accounts in
insertion order. -/
def getAllAccounts (s : BankState) : List Account :=
  s

/-- Modelled from the spec: the tenant-aware `TransactionEntity` data (the
tenant-aware service file consumes a `TransactionEntity` with a
`getCompanyId()` accessor, but the tenant-aware model file itself is not in
the sources).  Per the spec a Transfer carries source and destination account
numbers, a strictly positive amount and the tenant identifier. -/
structure TransactionT where
  fromAccount : String
  toAccount : String
  amount : ℚ
  companyId : String
deriving DecidableEq, Repr

/-- Modelled from the spec: the validating tenant-aware Transfer constructor —
like `TransactionSchema` (each account number exactly 16 digits,
`z.number().positive()` amount) plus the tenant field, rejecting invalid data
with a validation error. -/
def mkTransactionT (t : TransactionT) : Except BankingError TransactionT :=
  if isValidAccountNumber t.fromAccount = true ∧ isValidAccountNumber t.toAccount = true
      ∧ 0 < t.amount then
    .ok t
  else
    .error .validation

/-- Tenant-aware `BankingService.processTransaction`: look both accounts up,
fail on a missing account (reporting the source first), then on a tenant
mismatch (reporting the source's mismatch first), then on insufficient funds;
otherwise debit the source and credit the destination.  When the transfer is
a self-transfer both lookups alias one object, so the deposit applies to the
already-debited account. -/
def processTransaction (s : BankState) (t : TransactionT) : Except BankingError BankState :=
  match getAccount s t.fromAccount, getAccount s t.toAccount with
  | none, _ => .error (.accountNotFound t.fromAccount)
  | some _, none => .error (.accountNotFound t.toAccount)
  | some fromAccount, some toAccount =>
    if fromAccount.companyId ≠ t.companyId ∨ toAccount.companyId ≠ t.companyId then
      .error (.companyMismatch t.companyId
        (if fromAccount.companyId ≠ t.companyId then fromAccount.companyId
         else toAccount.companyId))
    else if ¬ fromAccount.canWithdraw t.amount = true then
      .error (.insufficientFunds fromAccount.accountNumber t.amount fromAccount.balance)
    else
      match fromAccount.withdraw t.amount with
      | .error e => .error e
      | .ok fromAccount1 =>
        let s1 := setAccount s fromAccount1
        let toAccount1 := if t.toAccount == t.fromAccount then fromAccount1 else toAccount
        .ok (setAccount s1 (toAccount1.deposit t.amount))

/-- Tenant-aware `BankingService.getAccountBalance`. -/
def getAccountBalance (s : BankState) (accountNumber companyId : String) :
    Except BankingError ℚ :=
  match getAccount s accountNumber with
  | none => .error (.accountNotFound accountNumber)
  | some account =>
    if account.companyId ≠ companyId then
      .error (.companyMismatch companyId account.companyId)
    else
      .ok account.balance

/-- Tenant-aware `BankingService.transfer`: rejects a non-positive amount with
the plain `Error('Amount must be greater than 0')` before any lookup, then
proceeds exactly like `processTransaction`. -/
def transfer (s : BankState) (fromAccountNumber toAccountNumber : String) (amount : ℚ)
    (companyId : String) : Except BankingError BankState :=
  if amount ≤ 0 then
    .error (.generic "Amount must be greater than 0")
  else
    match getAccount s fromAccountNumber, getAccount s toAccountNumber with
    | none, _ => .error (.accountNotFound fromAccountNumber)
    | some _, none => .error (.accountNotFound toAccountNumber)
    | some fromAccount, some toAccount =>
      if fromAccount.companyId ≠ companyId ∨ toAccount.companyId ≠ companyId then
        .error (.companyMismatch companyId
          (if fromAccount.companyId ≠ companyId then fromAccount.companyId
           else toAccount.companyId))
      else if fromAccount.balance < amount then
        .error (.insufficientFunds fromAccount.accountNumber amount fromAccount.balance)
      else
        match fromAccount.withdraw amount with
        | .error e => .error e
        | .ok fromAccount1 =>
          let s1 := setAccount s fromAccount1
          let toAccount1 :=
            if toAccountNumber == fromAccountNumber then fromAccount1 else toAccount
          .ok (setAccount s1 (toAccount1.deposit amount))

/-- Constructing a `TransactionEntity` and processing it: the only way
`processTransaction` is reached in the program is with a transaction that
survived its validating constructor. -/
def transferViaEntity (s : BankState) (t : TransactionT) : Except BankingError BankState :=
  match mkTransactionT t with
  | .error e => .error e
  | .ok t1 => processTransaction s t1

/-- The ledger as the caller observes it after a call: a thrown error leaves
the account map untouched, because in the source every mutation happens after
the last check. -/
def stateAfter (r : Except BankingError BankState) (s : BankState) : BankState :=
  match r with
  | .ok s1 => s1
  | .error _ => s

/-- The `Transaction` record of `domain/models/Transaction.ts` (plain
variant: no tenant field). -/
structure TransactionP where
  fromAccount : String
  toAccount : String
  amount : ℚ
deriving DecidableEq, Repr

/-- The validating `TransactionEntity` constructor of
`domain/models/Transaction.ts`: `TransactionSchema.parse` accepts the record
iff both account numbers are 16-digit strings and the amount is strictly
positive (`z.number().positive()`). -/
def mkTransactionP (t : TransactionP) : Except BankingError TransactionP :=
  if isValidAccountNumber t.fromAccount = true ∧ isValidAccountNumber t.toAccount = true
      ∧ 0 < t.amount then
    .ok t
  else
    .error .validation

/-- Plain `BankingService.processTransaction` (`src/services/BankingService.ts`):
like the tenant-aware one but with no tenant check. -/
def processTransactionP (s : BankState) (t : TransactionP) : Except BankingError BankState :=
  match getAccount s t.fromAccount, getAccount s t.toAccount with
  | none, _ => .error (.accountNotFound t.fromAccount)
  | some _, none => .error (.accountNotFound t.toAccount)
  | some fromAccount, some toAccount =>
    if ¬ fromAccount.canWithdraw t.amount = true then
      .error (.insufficientFunds fromAccount.accountNumber t.amount fromAccount.balance)
    else
      match fromAccount.withdraw t.amount with
      | .error e => .error e
      | .ok fromAccount1 =>
        let s1 := setAccount s fromAccount1
        let toAccount1 := if t.toAccount == t.fromAccount then fromAccount1 else toAccount
        .ok (setAccount s1 (toAccount1.deposit t.amount))

/-- Plain `BankingService.transfer`: rejects a non-positive amount with the
plain `Error('Amount must be greater than 0')` before any lookup. -/
def transferP (s : BankState) (fromAccountNumber toAccountNumber : String) (amount : ℚ) :
    Except BankingError BankState :=
  if amount ≤ 0 then
    .error (.generic "Amount must be greater than 0")
  else
    match getAccount s fromAccountNumber, getAccount s toAccountNumber with
    | none, _ => .error (.accountNotFound fromAccountNumber)
    | some _, none => .error (.accountNotFound toAccountNumber)
    | some fromAccount, some toAccount =>
      if fromAccount.balance < amount then
        .error (.insufficientFunds fromAccount.accountNumber amount fromAccount.balance)
      else
        match fromAccount.withdraw amount with
        | .error e => .error e
        | .ok fromAccount1 =>
          let s1 := setAccount s fromAccount1
          let toAccount1 :=
            if toAccountNumber == fromAccountNumber then fromAccount1 else toAccount
          .ok (setAccount s1 (toAccount1.deposit amount))

/-- Constructing a plain `TransactionEntity` and processing it. -/
def transferViaEntityP (s : BankState) (t : TransactionP) : Except BankingError BankState :=
  match mkTransactionP t with
  | .error e => .error e
  | .ok t1 => processTransactionP s t1

/-- One caller-visible operation on the tenant-aware service: processing a
transfer built by the validating Transfer constructor, calling the
convenience `transfer` entry point, querying one balance, or listing all
accounts. -/
inductive BankOp where
  | processTransfer (t : TransactionT)
  | doTransfer (fromAccountNumber toAccountNumber : String) (amount : ℚ) (companyId : String)
  | queryBalance (accountNumber companyId : String)
  | listAccounts
deriving Repr

/-- The ledger after one operation: a mutating call that throws leaves the map
untouched, and the two queries never write to it. -/
def applyOp (s : BankState) (op : BankOp) : BankState :=
  match op with
  | .processTransfer t => stateAfter (transferViaEntity s t) s
  | .doTransfer f t amount c => stateAfter (transfer s f t amount c) s
  | .queryBalance _ _ => s
  | .listAccounts => s

/-- A service built from the raw account records that survive the validating
`AccountEntity` constructor. -/
def mkServiceOfRecords (records : List Account) : BankState :=
  mkBankingService (records.filterMap (fun r => (mkAccountEntity r).toOption))

/-- Every balance in the ledger is non-negative. -/
def NonnegState (s : BankState) : Prop :=
  ∀ a ∈ s, 0 ≤ a.balance

/-- Equality of call outcomes (needed to evaluate concrete runs). -/
instance exceptDecEq {ε α : Type} [DecidableEq ε] [DecidableEq α] :
    DecidableEq (Except ε α)
  | .ok a, .ok b =>
    if h : a = b then .isTrue (by rw [h])
    else .isFalse (by intro hc; cases hc; exact h rfl)
  | .ok _, .error _ => .isFalse (by intro h; cases h)
  | .error _, .ok _ => .isFalse (by intro h; cases h)
  | .error e, .error f =>
    if h : e = f then .isTrue (by rw [h])
    else .isFalse (by intro hc; cases hc; exact h rfl)

/-- Concrete test account A of the README scenarios: balance 5000.00. -/
def acctA : Account := ⟨"1111111111111111", 5000, "acme"⟩

/-- Concrete test account B of the README scenarios: balance 550.00. -/
def acctB : Account := ⟨"2222222222222222", 550, "acme"⟩

/-- A two-account ledger holding `acctA` and `acctB`. -/
def demoState : BankState := [acctA, acctB]

/-- An account owned by tenant `alpha`. -/
def acctAlphaOne : Account := ⟨"3333333333333333", 100, "alpha"⟩

/-- A second account owned by tenant `alpha`. -/
def acctAlphaTwo : Account := ⟨"4444444444444444", 200, "alpha"⟩

/-- A ledger for the tenant-mismatch scenario. -/
def tenantState : BankState := [acctAlphaOne, acctAlphaTwo]

/-- A valid transfer of 500.00 from account A to account B. -/
def txAB : TransactionT := ⟨acctA.accountNumber, acctB.accountNumber, 500, "acme"⟩

/-- A self-transfer: source and destination are both account A. -/
def txSelf : TransactionT := ⟨acctA.accountNumber, acctA.accountNumber, 1, "acme"⟩

/-- A transfer whose source account is absent from `demoState`. -/
def txFromMissing : TransactionT := ⟨"0000000000000000", acctB.accountNumber, 10, "acme"⟩

/-- A transfer whose destination account is absent from `demoState`. -/
def txToMissing : TransactionT := ⟨acctA.accountNumber, "0000000000000000", 10, "acme"⟩

/-- A transfer between the two `alpha` accounts issued under tenant `beta`. -/
def txBeta : TransactionT :=
  ⟨acctAlphaOne.accountNumber, acctAlphaTwo.accountNumber, 10, "beta"⟩

/-- A transfer of 1000.00 out of account B, which only holds 550.00. -/
def txTooBig : TransactionT := ⟨acctB.accountNumber, acctA.accountNumber, 1000, "acme"⟩

/-- The fractional-cent transfer of scenario 5: 0.01 from A to B. -/
def txCent : TransactionT := ⟨acctA.accountNumber, acctB.accountNumber, 0.01, "acme"⟩

/-- A plain-variant transfer whose source account is absent from `demoState`. -/
def txPFromMissing : TransactionP := ⟨"0000000000000000", "2222222222222222", 10⟩

/-- A plain-variant transfer whose destination account is absent from
`demoState`. -/
def txPToMissing : TransactionP := ⟨"1111111111111111", "0000000000000000", 10⟩

/-- A plain-variant transfer with a negative amount. -/
def txPNeg : TransactionP := ⟨"1111111111111111", "2222222222222222", -5⟩

/-- A found account carries the account number it was looked up under. -/
theorem accountNumber_of_getAccount {s : BankState} {n : String} {a : Account}
    (h : getAccount s n = some a) : a.accountNumber = n := by
  have := List.find?_some h
  simpa using this

/-- A found account is in the ledger. -/
theorem mem_of_getAccount {s : BankState} {n : String} {a : Account}
    (h : getAccount s n = some a) : a ∈ s :=
  List.mem_of_find?_eq_some h

/-- Looking up any other number is unaffected by a write-back. -/
theorem getAccount_setAccount_ne {s : BankState} {a : Account} {n : String}
    (h : n ≠ a.accountNumber) : getAccount (setAccount s a) n = getAccount s n := by
  induction s with
  | nil => rfl
  | cons b s ih =>
    simp only [setAccount, List.map_cons] at *
    by_cases hb : b.accountNumber = a.accountNumber
    · rw [if_pos (by simpa using hb)]
      have ha : (a.accountNumber == n) = false := by
        simp [BEq.beq]
        exact fun hc => (h hc.symm).elim
      have hbn : (b.accountNumber == n) = false := by
        simp [BEq.beq, hb]
        exact fun hc => (h hc.symm).elim
      rw [getAccount, List.find?_cons_of_neg _ (by simp [ha]),
        getAccount, List.find?_cons_of_neg _ (by simp [hbn])]
      exact ih
    · rw [if_neg (by simpa using hb)]
      by_cases hbn : (b.accountNumber == n) = true
      · rw [getAccount, List.find?_cons_of_pos _ (by simp [hbn]),
          getAccount, List.find?_cons_of_pos _ (by simp [hbn])]
      · rw [getAccount, List.find?_cons_of_neg _ (by simp [hbn]),
          getAccount, List.find?_cons_of_neg _ (by simp [hbn])]
        exact ih

/-- Looking up the written-back account's own number returns the new value,
provided the number was present. -/
theorem getAccount_setAccount_self {s : BankState} {a b : Account}
    (h : getAccount s a.accountNumber = some b) :
    getAccount (setAccount s a) a.accountNumber = some a := by
  induction s with
  | nil => simp [getAccount] at h
  | cons c s ih =>
    simp only [setAccount, List.map_cons]
    by_cases hc : (c.accountNumber == a.accountNumber) = true
    · rw [if_pos hc]
      rw [getAccount, List.find?_cons_of_pos _ (by simp)]
    · rw [if_neg hc]
      rw [getAccount, List.find?_cons_of_neg _ (by simp_all)]
      apply ih
      rw [getAccount, List.find?_cons_of_neg _ (by simp_all)] at h
      exact h

/-- Every element of a write-back is the new account or an old element. -/
theorem mem_setAccount {s : BankState} {a b : Account}
    (hb : b ∈ setAccount s a) : b = a ∨ b ∈ s := by
  simp only [setAccount, List.mem_map] at hb
  obtain ⟨c, hc, hcb⟩ := hb
  by_cases h : (c.accountNumber == a.accountNumber) = true
  · rw [if_pos h] at hcb
    exact Or.inl hcb.symm
  · rw [if_neg h] at hcb
    exact Or.inr (hcb ▸ hc)

/-- `canWithdraw` decides `amount ≤ balance`. -/
theorem canWithdraw_iff {a : Account} {amount : ℚ} :
    a.canWithdraw amount = true ↔ amount ≤ a.balance := by
  simp [Account.canWithdraw, ge_iff_le]

/-- A withdrawal that passes the funds check subtracts the amount. -/
theorem withdraw_of_canWithdraw {a : Account} {amount : ℚ}
    (h : a.canWithdraw amount = true) :
    a.withdraw amount = .ok { a with balance := a.balance - amount } := by
  simp [Account.withdraw, h]

/-- What a successful validating account construction guarantees. -/
theorem mkAccountEntity_ok {a b : Account} (h : mkAccountEntity a = .ok b) :
    b = a ∧ 0 ≤ a.balance := by
  unfold mkAccountEntity at h
  split at h
  · cases h
    exact ⟨rfl, by tauto⟩
  · cases h

/-- What a successful validating tenant-aware transfer construction
guarantees. -/
theorem mkTransactionT_ok {t t1 : TransactionT} (h : mkTransactionT t = .ok t1) :
    t1 = t ∧ 0 < t.amount ∧ isValidAccountNumber t.fromAccount = true
      ∧ isValidAccountNumber t.toAccount = true := by
  unfold mkTransactionT at h
  split at h
  · cases h
    exact ⟨rfl, by tauto, by tauto, by tauto⟩
  · cases h

/-- Shape of a successful tenant-aware `processTransaction`: both accounts
were found, tenants matched, the funds check passed, and the result is the
debit of the source followed by the credit of the destination (which aliases
the debited source on a self-transfer). -/
theorem processTransaction_ok {s s1 : BankState} {t : TransactionT}
    (h : processTransaction s t = .ok s1) :
    ∃ fa ta, getAccount s t.fromAccount = some fa ∧ getAccount s t.toAccount = some ta ∧
      fa.companyId = t.companyId ∧ ta.companyId = t.companyId ∧
      t.amount ≤ fa.balance ∧
      s1 = setAccount (setAccount s { fa with balance := fa.balance - t.amount })
        (Account.deposit
          (if t.toAccount == t.fromAccount then { fa with balance := fa.balance - t.amount }
           else ta) t.amount) := by
  unfold processTransaction at h
  split at h
  · cases h
  · cases h
  · rename_i fa ta hfa hta
    refine ⟨fa, ta, hfa, hta, ?_⟩
    split at h
    · cases h
    · rename_i hcompany
      push_neg at hcompany
      split at h
      · cases h
      · rename_i hfunds
        rw [not_not] at hfunds
        rw [withdraw_of_canWithdraw hfunds] at h
        cases h
        exact ⟨hcompany.1, hcompany.2, canWithdraw_iff.mp hfunds, rfl⟩

/-- For a positive amount the convenience `transfer` entry point performs
exactly the steps of `processTransaction` on the corresponding transaction
record. -/
theorem transfer_eq_processTransaction {s : BankState} {fn tn : String} {amount : ℚ}
    {c : String} (hpos : 0 < amount) :
    transfer s fn tn amount c = processTransaction s ⟨fn, tn, amount, c⟩ := by
  unfold transfer processTransaction
  rw [if_neg (not_le.mpr hpos)]
  cases hfa : getAccount s fn <;> cases hta : getAccount s tn <;> simp only []
  rename_i fa ta
  by_cases hcomp : fa.companyId ≠ c ∨ ta.companyId ≠ c
  · rw [if_pos hcomp, if_pos hcomp]
  · rw [if_neg hcomp, if_neg hcomp]
    by_cases hcw : fa.canWithdraw amount = true
    · rw [if_neg (not_lt.mpr (canWithdraw_iff.mp hcw)), if_neg (not_not_intro hcw)]
    · rw [if_pos (not_le.mp (fun hle => hcw (canWithdraw_iff.mpr hle))), if_pos hcw]

/-- A write-back of a non-negative balance keeps the ledger non-negative. -/
theorem nonneg_setAccount {s : BankState} {a : Account}
    (hs : NonnegState s) (ha : 0 ≤ a.balance) : NonnegState (setAccount s a) := by
  intro b hb
  rcases mem_setAccount hb with rfl | hb1
  · exact ha
  · exact hs b hb1

/-- A successful `processTransaction` with a positive amount keeps every
balance non-negative. -/
theorem nonneg_processTransaction {s s1 : BankState} {t : TransactionT}
    (hs : NonnegState s) (hpos : 0 < t.amount)
    (h : processTransaction s t = .ok s1) : NonnegState s1 := by
  obtain ⟨fa, ta, hfa, hta, -, -, hble, rfl⟩ := processTransaction_ok h
  have hfa0 : (0:ℚ) ≤ fa.balance - t.amount := sub_nonneg.mpr hble
  apply nonneg_setAccount (nonneg_setAccount hs hfa0)
  by_cases hself : (t.toAccount == t.fromAccount) = true
  · simpa only [if_pos hself, Account.deposit] using add_nonneg hfa0 (le_of_lt hpos)
  · simpa only [if_neg hself, Account.deposit] using
      add_nonneg (hs ta (mem_of_getAccount hta)) (le_of_lt hpos)

/-- A successful convenience `transfer` keeps every balance non-negative
(its own guard supplies the positivity of the amount). -/
theorem nonneg_transfer {s s1 : BankState} {fn tn : String} {amount : ℚ} {c : String}
    (hs : NonnegState s) (h : transfer s fn tn amount c = .ok s1) : NonnegState s1 := by
  by_cases hpos : 0 < amount
  · rw [transfer_eq_processTransaction hpos] at h
    exact nonneg_processTransaction hs hpos h
  · unfold transfer at h
    rw [if_pos (not_lt.mp hpos)] at h
    cases h

/-- A successful `transferViaEntity` passed the validating constructor (so
the amount is positive) and then ran `processTransaction`. -/
theorem transferViaEntity_ok {s s1 : BankState} {t : TransactionT}
    (h : transferViaEntity s t = .ok s1) :
    0 < t.amount ∧ processTransaction s t = .ok s1 := by
  unfold transferViaEntity at h
  cases hmk : mkTransactionT t with
  | error e => rw [hmk] at h; cases h
  | ok t1 =>
    rw [hmk] at h
    obtain ⟨rfl, hpos, -, -⟩ := mkTransactionT_ok hmk
    exact ⟨hpos, h⟩

/-- One caller-visible operation keeps every balance non-negative. -/
theorem nonneg_applyOp {s : BankState} (op : BankOp) (hs : NonnegState s) :
    NonnegState (applyOp s op) := by
  cases op with
  | processTransfer t =>
    simp only [applyOp]
    cases hv : transferViaEntity s t with
    | error e => exact hs
    | ok s1 =>
      obtain ⟨hpos, hp⟩ := transferViaEntity_ok hv
      exact nonneg_processTransaction hs hpos hp
  | doTransfer fn tn amount c =>
    simp only [applyOp]
    cases ht : transfer s fn tn amount c with
    | error e => exact hs
    | ok s1 => exact nonneg_transfer hs ht
  | queryBalance n c => exact hs
  | listAccounts => exact hs

/-- Inserting a non-negative account keeps the ledger non-negative. -/
theorem nonneg_insertAccount {s : BankState} {a : Account}
    (hs : NonnegState s) (ha : 0 ≤ a.balance) : NonnegState (insertAccount s a) := by
  unfold insertAccount
  split
  · exact nonneg_setAccount hs ha
  · intro b hb
    rcases List.mem_append.mp hb with hb1 | hb1
    · exact hs b hb1
    · rw [List.mem_singleton] at hb1
      subst hb1
      exact ha

/-- A service built from validated account records is non-negative. -/
theorem nonneg_mkServiceOfRecords (records : List Account) :
    NonnegState (mkServiceOfRecords records) := by
  unfold mkServiceOfRecords mkBankingService
  have key : ∀ (l : List Account) (s : BankState), NonnegState s →
      (∀ a ∈ l, 0 ≤ a.balance) → NonnegState (l.foldl insertAccount s) := by
    intro l
    induction l with
    | nil => intro s hs _; exact hs
    | cons a l ih =>
      intro s hs hl
      exact ih _ (nonneg_insertAccount hs (hl a (by simp)))
        (fun b hb => hl b (by simp [hb]))
  apply key
  · intro a ha
    cases ha
  · intro a ha
    rw [List.mem_filterMap] at ha
    obtain ⟨r, -, hr⟩ := ha
    cases hmk : mkAccountEntity r with
    | error e => rw [hmk] at hr; cases hr
    | ok b =>
      rw [hmk] at hr
      obtain ⟨rfl, h0⟩ := mkAccountEntity_ok hmk
      cases hr
      exact h0

/-- Unfolding `getAccount` on the empty map. -/
theorem getAccount_nil {n : String} : getAccount [] n = none := rfl

/-- Unfolding `getAccount` one entry at a time. -/
theorem getAccount_cons {a : Account} {s : BankState} {n : String} :
    getAccount (a :: s) n = if a.accountNumber == n then some a else getAccount s n := by
  cases h : a.accountNumber == n <;> simp [getAccount, List.find?, h]

/-- Unfolding `setAccount` on the empty map. -/
theorem setAccount_nil {a : Account} : setAccount [] a = [] := rfl

/-- Unfolding `setAccount` one entry at a time. -/
theorem setAccount_cons {b a : Account} {s : BankState} :
    setAccount (b :: s) a =
      (if b.accountNumber == a.accountNumber then a else b) :: setAccount s a := rfl

/-- A missing source account makes `processTransaction` report the source's
number, whatever the destination lookup yields. -/
theorem processTransaction_missingFrom {s : BankState} {t : TransactionT}
    (h : getAccount s t.fromAccount = none) :
    processTransaction s t = .error (.accountNotFound t.fromAccount) := by
  cases hta : getAccount s t.toAccount <;> simp only [processTransaction, h, hta]

/-- A present source and a missing destination make `processTransaction`
report the destination's number. -/
theorem processTransaction_missingTo {s : BankState} {t : TransactionT} {fa : Account}
    (hfa : getAccount s t.fromAccount = some fa)
    (hta : getAccount s t.toAccount = none) :
    processTransaction s t = .error (.accountNotFound t.toAccount) := by
  simp only [processTransaction, hfa, hta]

/-- A tenant mismatch on either found account makes `processTransaction`
report the transfer's tenant as expected and the mismatching account's tenant
as actual, the source's tenant taking precedence. -/
theorem processTransaction_mismatch {s : BankState} {t : TransactionT} {fa ta : Account}
    (hfa : getAccount s t.fromAccount = some fa)
    (hta : getAccount s t.toAccount = some ta)
    (hc : fa.companyId ≠ t.companyId ∨ ta.companyId ≠ t.companyId) :
    processTransaction s t = .error (.companyMismatch t.companyId
      (if fa.companyId ≠ t.companyId then fa.companyId else ta.companyId)) := by
  simp only [processTransaction, hfa, hta]
  rw [if_pos hc]

/-- Matching tenants but a source balance below the amount make
`processTransaction` report insufficient funds with the requested and
available amounts. -/
theorem processTransaction_insufficient {s : BankState} {t : TransactionT} {fa ta : Account}
    (hfa : getAccount s t.fromAccount = some fa)
    (hta : getAccount s t.toAccount = some ta)
    (hcf : fa.companyId = t.companyId) (hct : ta.companyId = t.companyId)
    (hb : fa.balance < t.amount) :
    processTransaction s t =
      .error (.insufficientFunds fa.accountNumber t.amount fa.balance) := by
  simp only [processTransaction, hfa, hta]
  rw [if_neg (by push_neg; exact ⟨hcf, hct⟩)]
  rw [if_pos (by rw [canWithdraw_iff]; exact not_le.mpr hb)]

/-- Applying a valid transfer between two distinct found accounts: the result
is the source written back with the amount debited, then the destination
written back with the amount credited. -/
theorem processTransaction_apply {s : BankState} {t : TransactionT} {fa ta : Account}
    (hne : t.fromAccount ≠ t.toAccount)
    (hfa : getAccount s t.fromAccount = some fa)
    (hta : getAccount s t.toAccount = some ta)
    (hcf : fa.companyId = t.companyId) (hct : ta.companyId = t.companyId)
    (hb : t.amount ≤ fa.balance) :
    processTransaction s t =
      .ok (setAccount (setAccount s { fa with balance := fa.balance - t.amount })
        { ta with balance := ta.balance + t.amount }) := by
  have hcw : fa.canWithdraw t.amount = true := canWithdraw_iff.mpr hb
  simp only [processTransaction, hfa, hta]
  rw [if_neg (by push_neg; exact ⟨hcf, hct⟩)]
  rw [if_neg (not_not_intro hcw)]
  rw [withdraw_of_canWithdraw hcw]
  simp only [if_neg (show ¬ (t.toAccount == t.fromAccount) = true by
    simpa using fun hc => hne hc.symm)]
  rfl

/-- `getAccountBalance` on a missing account. -/
theorem getAccountBalance_missing {s : BankState} {n c : String}
    (h : getAccount s n = none) :
    getAccountBalance s n c = .error (.accountNotFound n) := by
  simp only [getAccountBalance, h]

/-- `getAccountBalance` on a found account of a different tenant. -/
theorem getAccountBalance_mismatch {s : BankState} {n c : String} {a : Account}
    (h : getAccount s n = some a) (hc : a.companyId ≠ c) :
    getAccountBalance s n c = .error (.companyMismatch c a.companyId) := by
  simp only [getAccountBalance, h]
  rw [if_pos hc]

/-- `getAccountBalance` on a found account of the right tenant. -/
theorem getAccountBalance_found {s : BankState} {n c : String} {a : Account}
    (h : getAccount s n = some a) (hc : a.companyId = c) :
    getAccountBalance s n c = .ok a.balance := by
  simp only [getAccountBalance, h]
  rw [if_neg (not_not_intro hc)]

/-- C1 (counterexample): on a self-transfer every precondition of the claim
holds — both lookups succeed, tenants match, the (positive) amount is covered
— and `processTransaction` succeeds, but the source balance does not decrease
at all, so it does not decrease by exactly the amount. -/
theorem c1_counterexample :
    getAccount demoState txSelf.fromAccount = some acctA ∧
    getAccount demoState txSelf.toAccount = some acctA ∧
    acctA.companyId = txSelf.companyId ∧
    0 < txSelf.amount ∧ txSelf.amount ≤ acctA.balance ∧
    processTransaction demoState txSelf = .ok demoState ∧
    (getAccount demoState txSelf.fromAccount).map Account.balance ≠
      some (acctA.balance - txSelf.amount) := by
  refine ⟨by decide, by decide, by decide, by decide, by decide, ?_, ?_⟩
  · simp +decide [processTransaction, demoState, txSelf, acctA, acctB, getAccount_cons,
      getAccount_nil, setAccount_cons, setAccount_nil, Account.withdraw, Account.canWithdraw,
      Account.deposit]
  · simp +decide [demoState, txSelf, acctA, getAccount_cons]
    norm_num

/-- C1 (amended): for every transfer between two **distinct** accounts that
both exist, with matching tenants and a (positive) amount covered by the
source balance, `processTransaction` succeeds, the source balance decreases
by exactly the amount, the destination balance increases by exactly the
amount, their sum is conserved, and no other account's balance changes. -/
theorem c1_theorem (s : BankState) (t : TransactionT) (fa ta : Account)
    (hne : t.fromAccount ≠ t.toAccount)
    (hfa : getAccount s t.fromAccount = some fa)
    (hta : getAccount s t.toAccount = some ta)
    (hcf : fa.companyId = t.companyId) (hct : ta.companyId = t.companyId)
    (hpos : 0 < t.amount) (hb : t.amount ≤ fa.balance) :
    ∃ s1, processTransaction s t = .ok s1 ∧
      (getAccount s1 t.fromAccount).map Account.balance = some (fa.balance - t.amount) ∧
      (getAccount s1 t.toAccount).map Account.balance = some (ta.balance + t.amount) ∧
      (fa.balance - t.amount) + (ta.balance + t.amount) = fa.balance + ta.balance ∧
      ∀ n, n ≠ t.fromAccount → n ≠ t.toAccount → getAccount s1 n = getAccount s n := by
  have hfN : fa.accountNumber = t.fromAccount := accountNumber_of_getAccount hfa
  have htN : ta.accountNumber = t.toAccount := accountNumber_of_getAccount hta
  refine ⟨_, processTransaction_apply hne hfa hta hcf hct hb, ?_, ?_, by ring, ?_⟩
  · have h1 : getAccount (setAccount s { fa with balance := fa.balance - t.amount })
        t.fromAccount = some { fa with balance := fa.balance - t.amount } := by
      have hpres :
          getAccount s ({ fa with balance := fa.balance - t.amount } : Account).accountNumber =
            some fa := by
        show getAccount s fa.accountNumber = some fa
        rw [hfN]
        exact hfa
      have hres := getAccount_setAccount_self hpres
      show getAccount _ t.fromAccount = _
      rw [← hfN]
      exact hres
    rw [getAccount_setAccount_ne (show t.fromAccount ≠
        ({ ta with balance := ta.balance + t.amount } : Account).accountNumber by
      show t.fromAccount ≠ ta.accountNumber
      rw [htN]
      exact hne), h1]
    rfl
  · have h1 : getAccount (setAccount s { fa with balance := fa.balance - t.amount })
        t.toAccount = some ta := by
      rw [getAccount_setAccount_ne (show t.toAccount ≠
          ({ fa with balance := fa.balance - t.amount } : Account).accountNumber by
        show t.toAccount ≠ fa.accountNumber
        rw [hfN]
        exact hne.symm)]
      exact hta
    have hpres : getAccount (setAccount s { fa with balance := fa.balance - t.amount })
        ({ ta with balance := ta.balance + t.amount } : Account).accountNumber = some ta := by
      show getAccount _ ta.accountNumber = some ta
      rw [htN]
      exact h1
    have hres := getAccount_setAccount_self hpres
    show (getAccount _ t.toAccount).map _ = _
    rw [← htN, hres]
    rfl
  · intro n hnf hnt
    rw [getAccount_setAccount_ne (show n ≠
        ({ ta with balance := ta.balance + t.amount } : Account).accountNumber by
      show n ≠ ta.accountNumber
      rw [htN]
      exact hnt)]
    rw [getAccount_setAccount_ne (show n ≠
        ({ fa with balance := fa.balance - t.amount } : Account).accountNumber by
      show n ≠ fa.accountNumber
      rw [hfN]
      exact hnf)]

/-- C1 witness: the 500.00 transfer from A (5000.00) to B (550.00) of
scenario 1. -/
theorem c1_witness :
    ∃ s1, processTransaction demoState txAB = .ok s1 ∧
      (getAccount s1 txAB.fromAccount).map Account.balance =
        some (acctA.balance - txAB.amount) ∧
      (getAccount s1 txAB.toAccount).map Account.balance =
        some (acctB.balance + txAB.amount) ∧
      (acctA.balance - txAB.amount) + (acctB.balance + txAB.amount) =
        acctA.balance + acctB.balance ∧
      ∀ n, n ≠ txAB.fromAccount → n ≠ txAB.toAccount →
        getAccount s1 n = getAccount demoState n :=
  c1_theorem demoState txAB acctA acctB (by decide) (by decide) (by decide) (by decide)
    (by decide) (by decide) (by decide)

/-- C2: the validation of `processTransaction` runs in the fixed order
existence (source first), then tenant match, then sufficient funds; the first
failing check determines the raised error, and a failing call leaves the
ledger exactly as it was. -/
theorem c2_theorem (s : BankState) (t : TransactionT) :
    (getAccount s t.fromAccount = none →
      processTransaction s t = .error (.accountNotFound t.fromAccount)) ∧
    (∀ fa, getAccount s t.fromAccount = some fa → getAccount s t.toAccount = none →
      processTransaction s t = .error (.accountNotFound t.toAccount)) ∧
    (∀ fa ta, getAccount s t.fromAccount = some fa → getAccount s t.toAccount = some ta →
      fa.companyId ≠ t.companyId ∨ ta.companyId ≠ t.companyId →
      processTransaction s t = .error (.companyMismatch t.companyId
        (if fa.companyId ≠ t.companyId then fa.companyId else ta.companyId))) ∧
    (∀ fa ta, getAccount s t.fromAccount = some fa → getAccount s t.toAccount = some ta →
      fa.companyId = t.companyId → ta.companyId = t.companyId → fa.balance < t.amount →
      processTransaction s t =
        .error (.insufficientFunds fa.accountNumber t.amount fa.balance)) ∧
    (∀ e, processTransaction s t = .error e → stateAfter (processTransaction s t) s = s) :=
  ⟨fun h => processTransaction_missingFrom h,
   fun _ hfa hta => processTransaction_missingTo hfa hta,
   fun _ _ hfa hta hc => processTransaction_mismatch hfa hta hc,
   fun _ _ hfa hta hcf hct hb => processTransaction_insufficient hfa hta hcf hct hb,
   fun _ he => by rw [he]; rfl⟩

/-- C2 witness: the four failure modes on concrete ledgers — missing source,
missing destination, tenant mismatch, insufficient funds — each short-circuit
with their error and leave the ledger untouched. -/
theorem c2_witness :
    processTransaction demoState txFromMissing =
      .error (.accountNotFound "0000000000000000") ∧
    processTransaction demoState txToMissing =
      .error (.accountNotFound "0000000000000000") ∧
    processTransaction tenantState txBeta = .error (.companyMismatch "beta" "alpha") ∧
    processTransaction demoState txTooBig =
      .error (.insufficientFunds "2222222222222222" 1000 550) ∧
    stateAfter (processTransaction demoState txTooBig) demoState = demoState := by
  have h3 := (c2_theorem tenantState txBeta).2.2.1 acctAlphaOne acctAlphaTwo
    (by decide) (by decide) (by decide)
  have h4 := (c2_theorem demoState txTooBig).2.2.2.1 acctB acctA
    (by decide) (by decide) (by decide) (by decide) (by decide)
  have h4x : processTransaction demoState txTooBig =
      .error (.insufficientFunds "2222222222222222" 1000 550) := by
    simpa +decide [txTooBig, acctB] using h4
  exact ⟨(c2_theorem demoState txFromMissing).1 (by decide),
    (c2_theorem demoState txToMissing).2.1 acctA (by decide) (by decide),
    by simpa +decide [txBeta, acctAlphaOne, acctAlphaTwo] using h3,
    h4x, (c2_theorem demoState txTooBig).2.2.2.2 _ h4x⟩

/-- C5: a missing source account makes `processTransaction` fail with
`AccountNotFound` carrying the source's number (also when both accounts are
missing, since no condition is placed on the destination lookup); a present
source with a missing destination reports the destination's number.  Both the
tenant-aware and the plain variant behave this way. -/
theorem c5_theorem (s : BankState) (t : TransactionT) (tp : TransactionP) :
    (getAccount s t.fromAccount = none →
      processTransaction s t = .error (.accountNotFound t.fromAccount)) ∧
    (∀ fa, getAccount s t.fromAccount = some fa → getAccount s t.toAccount = none →
      processTransaction s t = .error (.accountNotFound t.toAccount)) ∧
    (getAccount s tp.fromAccount = none →
      processTransactionP s tp = .error (.accountNotFound tp.fromAccount)) ∧
    (∀ fa, getAccount s tp.fromAccount = some fa → getAccount s tp.toAccount = none →
      processTransactionP s tp = .error (.accountNotFound tp.toAccount)) := by
  refine ⟨fun h => processTransaction_missingFrom h,
    fun _ hfa hta => processTransaction_missingTo hfa hta,
    fun h => ?_, fun fa hfa hta => ?_⟩
  · cases hta : getAccount s tp.toAccount <;> simp only [processTransactionP, h, hta]
  · simp only [processTransactionP, hfa, hta]

/-- C5 witness: on the empty ledger both accounts of `txFromMissing` are
missing and the source's number is reported; on `demoState` a missing source
and a missing destination are each reported, in both variants. -/
theorem c5_witness :
    processTransaction ([] : BankState) txFromMissing =
      .error (.accountNotFound "0000000000000000") ∧
    processTransaction demoState txToMissing =
      .error (.accountNotFound "0000000000000000") ∧
    processTransactionP demoState txPFromMissing =
      .error (.accountNotFound "0000000000000000") ∧
    processTransactionP demoState txPToMissing =
      .error (.accountNotFound "0000000000000000") :=
  ⟨(c5_theorem [] txFromMissing txPFromMissing).1 (by decide),
   (c5_theorem demoState txToMissing txPToMissing).2.1 acctA (by decide) (by decide),
   (c5_theorem demoState txToMissing txPFromMissing).2.2.1 (by decide),
   (c5_theorem demoState txToMissing txPToMissing).2.2.2 acctA (by decide) (by decide)⟩

/-- C6: a tenant mismatch on the source account (whatever the destination's
tenant) is reported as `TenantMismatch(transfer's tenant, source's tenant)`;
a matching source with a mismatching destination reports the destination's
tenant; `getBalance` reports `TenantMismatch(supplied tenant, account's
tenant)` the same way. -/
theorem c6_theorem (s : BankState) (t : TransactionT) (n c : String) :
    (∀ fa ta, getAccount s t.fromAccount = some fa → getAccount s t.toAccount = some ta →
      fa.companyId ≠ t.companyId →
      processTransaction s t = .error (.companyMismatch t.companyId fa.companyId)) ∧
    (∀ fa ta, getAccount s t.fromAccount = some fa → getAccount s t.toAccount = some ta →
      fa.companyId = t.companyId → ta.companyId ≠ t.companyId →
      processTransaction s t = .error (.companyMismatch t.companyId ta.companyId)) ∧
    (∀ a, getAccount s n = some a → a.companyId ≠ c →
      getAccountBalance s n c = .error (.companyMismatch c a.companyId)) := by
  refine ⟨fun fa ta hfa hta hcf => ?_, fun fa ta hfa hta hcf hct => ?_,
    fun a ha hc => getAccountBalance_mismatch ha hc⟩
  · have h := processTransaction_mismatch hfa hta (Or.inl hcf)
    rwa [if_pos hcf] at h
  · have h := processTransaction_mismatch hfa hta (Or.inr hct)
    rwa [if_neg (not_not_intro hcf)] at h

/-- C6 witness: scenario 4 — both accounts belong to tenant `alpha`; a
transfer and a balance query issued under tenant `beta` fail with
`TenantMismatch("beta", "alpha")`. -/
theorem c6_witness :
    processTransaction tenantState txBeta = .error (.companyMismatch "beta" "alpha") ∧
    getAccountBalance tenantState "3333333333333333" "beta" =
      .error (.companyMismatch "beta" "alpha") := by
  have h1 := (c6_theorem tenantState txBeta "3333333333333333" "beta").1
    acctAlphaOne acctAlphaTwo (by decide) (by decide) (by decide)
  have h2 := (c6_theorem tenantState txBeta "3333333333333333" "beta").2.2
    acctAlphaOne (by decide) (by decide)
  exact ⟨by simpa +decide [txBeta, acctAlphaOne] using h1,
    by simpa +decide [acctAlphaOne] using h2⟩

/-- C3: starting from any collection of raw account records filtered through
the validating `AccountEntity` constructor, any sequence of
`processTransaction` (on transfers built by the validating Transfer
constructor), `transfer`, `getAccountBalance` and `getAllAccounts` calls —
successful or failing — leaves every balance in the ledger non-negative. -/
theorem c3_theorem (records : List Account) (ops : List BankOp) :
    NonnegState (ops.foldl applyOp (mkServiceOfRecords records)) := by
  have key : ∀ (l : List BankOp) (s : BankState), NonnegState s →
      NonnegState (l.foldl applyOp s) := by
    intro l
    induction l with
    | nil => exact fun s hs => hs
    | cons op l ih => exact fun s hs => ih _ (nonneg_applyOp op hs)
  exact key ops _ (nonneg_mkServiceOfRecords records)

/-- C4 (counterexample): with a malformed (non-16-digit) source account
number and a positive amount, the convenience `transfer` reports
`AccountNotFound("abc")` while constructing the Transfer first raises the
constructor's validation error — the two entry points do not behave
identically on all inputs. -/
theorem c4_counterexample :
    transfer ([] : BankState) "abc" "2222222222222222" 5 "c" =
      .error (.accountNotFound "abc") ∧
    transferViaEntity ([] : BankState) ⟨"abc", "2222222222222222", 5, "c"⟩ =
      .error .validation ∧
    BankingError.accountNotFound "abc" ≠ BankingError.validation := by
  refine ⟨?_, ?_, by decide⟩
  · simp +decide [transfer, getAccount_nil]
  · simp +decide [transferViaEntity, mkTransactionT, isValidAccountNumber]

/-- C4 (amended): provided both account numbers are well-formed 16-digit
strings, `transfer` behaves identically to constructing a Transfer and
calling `processTransaction` — except that for a non-positive amount
`transfer` fails with the generic "Amount must be greater than 0" error,
before any lookup, while the constructor raises its distinct validation
error.  (For malformed account numbers the two entry points differ, as the
counterexample shows.) -/
theorem c4_theorem (s : BankState) (fn tn : String) (amount : ℚ) (c : String)
    (hf : isValidAccountNumber fn = true) (ht : isValidAccountNumber tn = true) :
    (amount ≤ 0 →
      transfer s fn tn amount c = .error (.generic "Amount must be greater than 0") ∧
      transferViaEntity s ⟨fn, tn, amount, c⟩ = .error .validation) ∧
    (0 < amount → transfer s fn tn amount c = transferViaEntity s ⟨fn, tn, amount, c⟩) := by
  constructor
  · intro hle
    constructor
    · unfold transfer
      rw [if_pos hle]
    · have hmk : mkTransactionT ⟨fn, tn, amount, c⟩ = .error .validation := by
        unfold mkTransactionT
        rw [if_neg]
        rintro ⟨-, -, hpos⟩
        exact absurd hpos (not_lt.mpr hle)
      simp only [transferViaEntity, hmk]
  · intro hpos
    have hmk : mkTransactionT ⟨fn, tn, amount, c⟩ = .ok ⟨fn, tn, amount, c⟩ := by
      unfold mkTransactionT
      rw [if_pos ⟨hf, ht, hpos⟩]
    simp only [transferViaEntity, hmk]
    exact transfer_eq_processTransaction hpos

/-- C4 witness: on `demoState` with well-formed numbers, a non-positive
amount produces the two distinct errors, and a positive amount makes the two
entry points agree exactly. -/
theorem c4_witness :
    (transfer demoState "1111111111111111" "2222222222222222" (-3) "acme" =
      .error (.generic "Amount must be greater than 0") ∧
     transferViaEntity demoState ⟨"1111111111111111", "2222222222222222", -3, "acme"⟩ =
      .error .validation) ∧
    transfer demoState "1111111111111111" "2222222222222222" 500 "acme" =
      transferViaEntity demoState ⟨"1111111111111111", "2222222222222222", 500, "acme"⟩ :=
  ⟨(c4_theorem demoState "1111111111111111" "2222222222222222" (-3) "acme"
      (by decide) (by decide)).1 (by norm_num),
   (c4_theorem demoState "1111111111111111" "2222222222222222" 500 "acme"
      (by decide) (by decide)).2 (by norm_num)⟩

/-- C7: for a non-positive amount, the convenience `transfer` entry point (in
both variants) fails with the generic error before any lookup, and building a
Transfer entity for `processTransaction` fails at construction — in every
case the ledger the caller observes afterwards is exactly the ledger before
the call. -/
theorem c7_theorem (s : BankState) (fn tn : String) (amount : ℚ) (c : String)
    (tp : TransactionP) (tt : TransactionT)
    (h : amount ≤ 0) (hp : tp.amount ≤ 0) (htt : tt.amount ≤ 0) :
    transferP s fn tn amount = .error (.generic "Amount must be greater than 0") ∧
    stateAfter (transferP s fn tn amount) s = s ∧
    transferViaEntityP s tp = .error .validation ∧
    stateAfter (transferViaEntityP s tp) s = s ∧
    transfer s fn tn amount c = .error (.generic "Amount must be greater than 0") ∧
    stateAfter (transfer s fn tn amount c) s = s ∧
    transferViaEntity s tt = .error .validation ∧
    stateAfter (transferViaEntity s tt) s = s := by
  have h1 : transferP s fn tn amount = .error (.generic "Amount must be greater than 0") := by
    unfold transferP
    rw [if_pos h]
  have h2 : transferViaEntityP s tp = .error .validation := by
    have hmk : mkTransactionP tp = .error .validation := by
      unfold mkTransactionP
      rw [if_neg]
      rintro ⟨-, -, hpos⟩
      exact absurd hpos (not_lt.mpr hp)
    simp only [transferViaEntityP, hmk]
  have h3 : transfer s fn tn amount c = .error (.generic "Amount must be greater than 0") := by
    unfold transfer
    rw [if_pos h]
  have h4 : transferViaEntity s tt = .error .validation := by
    have hmk : mkTransactionT tt = .error .validation := by
      unfold mkTransactionT
      rw [if_neg]
      rintro ⟨-, -, hpos⟩
      exact absurd hpos (not_lt.mpr htt)
    simp only [transferViaEntity, hmk]
  exact ⟨h1, by rw [h1]; rfl, h2, by rw [h2]; rfl, h3, by rw [h3]; rfl, h4, by rw [h4]; rfl⟩

/-- C7 witness: a zero amount through `transfer` and a negative amount
through the Transfer constructor, in both variants, on `demoState`. -/
theorem c7_witness :
    transferP demoState "1111111111111111" "2222222222222222" 0 =
      .error (.generic "Amount must be greater than 0") ∧
    stateAfter (transferP demoState "1111111111111111" "2222222222222222" 0) demoState =
      demoState ∧
    transferViaEntityP demoState txPNeg = .error .validation ∧
    stateAfter (transferViaEntityP demoState txPNeg) demoState = demoState ∧
    transfer demoState "1111111111111111" "2222222222222222" 0 "acme" =
      .error (.generic "Amount must be greater than 0") ∧
    stateAfter (transfer demoState "1111111111111111" "2222222222222222" 0 "acme")
      demoState = demoState ∧
    transferViaEntity demoState ⟨"1111111111111111", "2222222222222222", -5, "acme"⟩ =
      .error .validation ∧
    stateAfter (transferViaEntity demoState
      ⟨"1111111111111111", "2222222222222222", -5, "acme"⟩) demoState = demoState :=
  c7_theorem demoState "1111111111111111" "2222222222222222" 0 "acme" txPNeg
    ⟨"1111111111111111", "2222222222222222", -5, "acme"⟩
    (by norm_num) (by norm_num [txPNeg]) (by norm_num)

/-- C8: `canAfford` is true exactly when the balance covers the amount;
`debit` fails with the insufficient-funds error exactly when `canAfford` is
false (returning no new account state, so the balance is unchanged), and
otherwise decreases the balance by exactly the amount — in particular
debiting the entire balance succeeds and leaves a zero balance. -/
theorem c8_theorem (a : Account) (amount : ℚ) :
    (a.canWithdraw amount = true ↔ a.balance ≥ amount) ∧
    (a.canWithdraw amount = false →
      a.withdraw amount = .error (.generic "Insufficient funds")) ∧
    (a.canWithdraw amount = true →
      a.withdraw amount = .ok { a with balance := a.balance - amount }) ∧
    (∃ b, a.withdraw a.balance = .ok b ∧ b.balance = 0) := by
  refine ⟨⟨fun h => ge_iff_le.mpr (canWithdraw_iff.mp h),
    fun h => canWithdraw_iff.mpr (ge_iff_le.mp h)⟩, fun h => ?_,
    fun h => withdraw_of_canWithdraw h, ?_⟩
  · unfold Account.withdraw
    rw [if_neg]
    rw [h]
    exact Bool.false_ne_true
  · have hcw : a.canWithdraw a.balance = true := canWithdraw_iff.mpr le_rfl
    exact ⟨_, withdraw_of_canWithdraw hcw, sub_self _⟩

/-- C8 witness: on account B (balance 550.00): a 600.00 debit is refused and
errors, a 500.00 debit succeeds and subtracts exactly 500.00, and debiting
the full 550.00 leaves balance 0. -/
theorem c8_witness :
    acctB.canWithdraw 600 = false ∧
    acctB.withdraw 600 = .error (.generic "Insufficient funds") ∧
    acctB.canWithdraw 500 = true ∧
    acctB.withdraw 500 = .ok { acctB with balance := acctB.balance - 500 } ∧
    (∃ b, acctB.withdraw acctB.balance = .ok b ∧ b.balance = 0) :=
  ⟨by decide, (c8_theorem acctB 600).2.1 (by decide), by decide,
    (c8_theorem acctB 500).2.2.1 (by decide), (c8_theorem acctB 0).2.2.2⟩

/-- C10: the credit primitive `deposit` is total — it performs no check of
any kind and unconditionally sets the balance to `balance + amount`, for
every amount including zero and negative ones; a direct negative deposit
larger in magnitude than the balance drives the balance below zero. -/
theorem c10_theorem :
    (∀ (a : Account) (amount : ℚ), (a.deposit amount).balance = a.balance + amount) ∧
    (acctB.deposit (-1000)).balance < 0 := by
  refine ⟨fun a amount => rfl, ?_⟩
  norm_num [Account.deposit, acctB]

/-- C9: scenario 5 — a transfer of 0.01 from A (5000.00) to B (550.00)
yields exactly 4999.99 and 550.01: the debit and credit arithmetic preserve
fractional cents exactly, with no rounding (balances are exact rationals in
this model, mirroring the plain `-=`/`+=` of the source). -/
theorem c9_theorem :
    processTransaction demoState txCent =
      .ok [⟨"1111111111111111", 4999.99, "acme"⟩, ⟨"2222222222222222", 550.01, "acme"⟩] ∧
    acctA.withdraw 0.01 = .ok ⟨"1111111111111111", 4999.99, "acme"⟩ ∧
    acctB.deposit 0.01 = ⟨"2222222222222222", 550.01, "acme"⟩ := by
  have hcw : acctA.canWithdraw 0.01 = true := by
    rw [canWithdraw_iff]
    norm_num [acctA]
  refine ⟨?_, ?_, ?_⟩
  · rw [@processTransaction_apply demoState txCent acctA acctB (by decide) (by decide)
      (by decide) (by decide) (by decide) (by norm_num [txCent, acctA])]
    simp +decide [demoState, acctA, acctB, txCent, setAccount_cons, setAccount_nil]
    norm_num
  · rw [show (0.01 : ℚ) = txCent.amount from rfl]
    rw [show acctA.withdraw txCent.amount =
      .ok { acctA with balance := acctA.balance - txCent.amount } from
      withdraw_of_canWithdraw hcw]
    norm_num [acctA, txCent]
  · norm_num [Account.deposit, acctB]
